import Mathlib

/-!
Shallow embedding of the wallet-management service (FastAPI + BigQuery).

Python strings are embedded as `List Char` (`PyStr`); timestamps as `Nat`
(UTC instants, ordered); SQL query jobs as a query text (`String`) plus a
named-parameter list.  Each route handler is embedded as a pure function
from its inputs and the current table contents (`List Row`) to an
`Outcome`: the HTTP-level result (`Except Nat α`, the `Nat` being the
error status code), the new table contents, and the list of SQL jobs the
handler issued against the backend, in order.

Sources: src/app/utils/helpers.py, src/app/router/wallets.py,
src/app/router/frontend.py, src/app/models/wallet.py.
-/

namespace WalletMgmt

/-- A Python `str`, embedded character by character. -/
abbrev PyStr := List Char

/-- Matches the character class `[a-fA-F0-9]` of the address regex in
`helpers.validate_ethereum_address` (ASCII code points). -/
def isPyHexDigit (c : Char) : Bool :=
  (48 ≤ c.toNat && c.toNat ≤ 57) || (97 ≤ c.toNat && c.toNat ≤ 102) ||
    (65 ≤ c.toNat && c.toNat ≤ 70)

/-- Python `str.lower` on a single ASCII character (the address domain is
ASCII-only, so the ASCII case mapping is the relevant fragment). -/
def pyLowerChar (c : Char) : Char :=
  if 65 ≤ c.toNat && c.toNat ≤ 90 then Char.ofNat (c.toNat + 32) else c

/-- Python `str.upper` on a single ASCII character. -/
def pyUpperChar (c : Char) : Char :=
  if 97 ≤ c.toNat && c.toNat ≤ 122 then Char.ofNat (c.toNat - 32) else c

/-- Python `address.startswith('0x')` from `validate_ethereum_address`. -/
def startsWith0x : PyStr → Bool
  | c0 :: c1 :: _ => c0 == '0' && c1 == 'x'
  | _ => false

/-- Python `re.match(r'^0x[a-fA-F0-9]{40}$', address)` as a Boolean:
`re.match` anchors at the start, and `$` matches at the end of the string
or just before a single trailing newline. -/
def ethRegexMatch (s : PyStr) : Bool :=
  match s with
  | c0 :: c1 :: rest =>
      c0 == '0' && c1 == 'x' &&
        ((rest.length == 40 && rest.all isPyHexDigit) ||
         (rest.length == 41 && (rest.take 40).all isPyHexDigit &&
            rest.drop 40 == ['\n']))
  | _ => false

/-- Embeds `helpers.validate_ethereum_address`: prefix/length check, then the
regex check, then lowercase normalization.  `Except.error 400` embeds the
raised `HTTPException(status_code=400)`. -/
def validate_ethereum_address (address : PyStr) : Except Nat PyStr :=
  if !startsWith0x address || address.length != 42 then .error 400
  else if !ethRegexMatch address then .error 400
  else .ok (address.map pyLowerChar)

/-- The C-locale whitespace set (`Py_ISSPACE`) that `PyLong_FromString`
strips around a numeric literal: 0x09..0x0D and space. -/
def isAsciiSpace (c : Char) : Bool :=
  (9 ≤ c.toNat && c.toNat ≤ 13) || c.toNat == 32

/-- The whitespace set of CPython's `str.isspace` / `Py_UNICODE_ISSPACE`
(White_Space property plus bidirectional classes WS, B and S): the ASCII
controls 0x09..0x0D, the separators 0x1C..0x1F, space, NEL 0x85, NBSP
0xA0, Ogham space 0x1680, the 0x2000..0x200A range, line and paragraph
separators 0x2028/0x2029, narrow NBSP 0x202F, math space 0x205F and
ideographic space 0x3000.  The decimal-and-space transform consults it
only for code points of 127 and above (so 0x1C..0x1F pass through
unchanged there and are then rejected by the numeric parser, whose own
strip set is `isAsciiSpace`). -/
def isUniSpace (c : Char) : Bool :=
  let n := c.toNat
  (9 ≤ n && n ≤ 13) || (28 ≤ n && n ≤ 32) || n == 133 || n == 160 ||
    n == 5760 || (8192 ≤ n && n ≤ 8202) || n == 8232 || n == 8233 ||
    n == 8239 || n == 8287 || n == 12288

/-- Zero code points of the 66 decimal-digit (Nd) ranges of Unicode 14.0,
the table behind CPython 3.11's `Py_UNICODE_TODECIMAL` (each range holds
the digits 0..9 consecutively). -/
def uniDigitZeros : List Nat :=
  [0x30, 0x660, 0x6F0, 0x7C0, 0x966, 0x9E6, 0xA66, 0xAE6, 0xB66, 0xBE6,
   0xC66, 0xCE6, 0xD66, 0xDE6, 0xE50, 0xED0, 0xF20, 0x1040, 0x1090, 0x17E0,
   0x1810, 0x1946, 0x19D0, 0x1A80, 0x1A90, 0x1B50, 0x1BB0, 0x1C40, 0x1C50,
   0xA620, 0xA8D0, 0xA900, 0xA9D0, 0xA9F0, 0xAA50, 0xABF0, 0xFF10,
   0x104A0, 0x10D30, 0x11066, 0x110F0, 0x11136, 0x111D0, 0x112F0, 0x11450,
   0x114D0, 0x11650, 0x116C0, 0x11730, 0x118E0, 0x11950, 0x11C50, 0x11D50,
   0x11DA0, 0x16A60, 0x16AC0, 0x16B50, 0x1D7CE, 0x1D7D8, 0x1D7E2,
   0x1D7EC, 0x1D7F6, 0x1E140, 0x1E2F0, 0x1E950, 0x1FBF0]

/-- Decimal value of a Unicode decimal digit (`Py_UNICODE_TODECIMAL`),
`none` for every other character. -/
def uniDecimalVal (c : Char) : Option Nat :=
  uniDigitZeros.findSome? (fun z =>
    if z ≤ c.toNat && c.toNat ≤ z + 9 then some (c.toNat - z) else none)

/-- CPython's `_PyUnicode_TransformDecimalAndSpaceToASCII`, applied by
`int(str, base)` before parsing: characters below 127 pass through,
Unicode whitespace becomes an ASCII space, Unicode decimal digits become
the matching ASCII digit, and anything else becomes `?`, which the
numeric parser then rejects.  (A CPython `str` can also hold lone
surrogates, which fall outside `Char`; they are neither whitespace nor
decimal digits, so `int` always rejects them — no accepted string is
lost to the embedding.) -/
def pyTransformChar (c : Char) : Char :=
  if c.toNat < 127 then c
  else if isUniSpace c then ' '
  else
    match uniDecimalVal c with
    | some d => Char.ofNat (48 + d)
    | none => '?'

/-- Numeric value of a hexadecimal digit character. -/
def hexVal (c : Char) : Nat :=
  if 48 ≤ c.toNat && c.toNat ≤ 57 then c.toNat - 48
  else if 97 ≤ c.toNat && c.toNat ≤ 102 then c.toNat - 87
  else c.toNat - 55

/-- Scanner for the digit part of a Python base-16 integer literal after
the first digit has been consumed: an underscore must be followed by a
digit, and the string may end only after a digit. -/
def hexDigitsTail : PyStr → Bool
  | [] => true
  | '_' :: c :: rest => isPyHexDigit c && hexDigitsTail rest
  | '_' :: [] => false
  | c :: rest => isPyHexDigit c && hexDigitsTail rest

/-- The digit part of a Python base-16 integer literal: nonempty, single
underscores only between digits, and a leading underscore only directly
after a `0x` base prefix. -/
def hexDigitsOk (hadPre : Bool) : PyStr → Bool
  | [] => false
  | '_' :: c :: rest => hadPre && isPyHexDigit c && hexDigitsTail rest
  | '_' :: [] => false
  | c :: rest => isPyHexDigit c && hexDigitsTail rest

/-- Value of a hexadecimal digit string, underscores skipped. -/
def hexDigitsVal (ds : PyStr) : Nat :=
  ds.foldl (fun acc c => if c == '_' then acc else acc * 16 + hexVal c) 0

/-- Python `int(s, 16)` on a `str`: first the decimal-and-space-to-ASCII
transform, then `PyLong_FromString` — strip surrounding whitespace, an
optional sign, an optional `0x`/`0X` prefix, then hexadecimal digits with
single-underscore separators; `none` embeds the raised `ValueError`. -/
def pyIntHex (s0 : PyStr) : Option Int :=
  let s := s0.map pyTransformChar
  let t := ((s.dropWhile isAsciiSpace).reverse.dropWhile isAsciiSpace).reverse
  let sgn : Int := match t with
    | '+' :: _ => 1
    | '-' :: _ => -1
    | _ => 1
  let t1 : PyStr := match t with
    | '+' :: r => r
    | '-' :: r => r
    | r => r
  let hadPre : Bool := match t1 with
    | '0' :: 'x' :: _ => true
    | '0' :: 'X' :: _ => true
    | _ => false
  let t2 : PyStr := match t1 with
    | '0' :: 'x' :: r => r
    | '0' :: 'X' :: r => r
    | r => r
  if hexDigitsOk hadPre t2 then some (sgn * (hexDigitsVal t2 : Int)) else none

/-- Python `s.replace(pat, sub)` for a nonempty `pat`: replace
non-overlapping occurrences left to right.  The fuel argument (the length
of the scanned string) only forces termination; one fuel unit is spent per
scanned position, which never exceeds the string length. -/
def pyReplaceAux (pat sub : PyStr) : Nat → PyStr → PyStr
  | _, [] => []
  | 0, s => s
  | fuel + 1, c :: rest =>
      if (c :: rest).take pat.length == pat then
        sub ++ pyReplaceAux pat sub fuel ((c :: rest).drop pat.length)
      else
        c :: pyReplaceAux pat sub fuel rest

/-- Python `s.replace(pat, sub)` for the nonempty patterns used by
`uuid.UUID` (`'urn:'`, `'uuid:'`, `'-'`). -/
def pyReplace (pat sub s : PyStr) : PyStr :=
  pyReplaceAux pat sub s.length s

/-- One of the two characters stripped by Python `s.strip('{}')`
(code points 123 and 125). -/
def isBraceChar (c : Char) : Bool :=
  c.toNat == 123 || c.toNat == 125

/-- Python `s.strip('{}')`: remove leading and trailing brace characters. -/
def pyStripBraces (s : PyStr) : PyStr :=
  ((s.dropWhile isBraceChar).reverse.dropWhile isBraceChar).reverse

/-- The acceptance predicate of CPython's `uuid.UUID(hex=s)` constructor:
remove `'urn:'` and `'uuid:'` occurrences, strip surrounding braces,
remove hyphens, require exactly 32 remaining characters, parse them with
`int(_, 16)`, and require the value to be a 128-bit non-negative integer. -/
def pyUuidOk (s : PyStr) : Bool :=
  let h1 := pyReplace ("urn:".toList) [] s
  let h2 := pyReplace ("uuid:".toList) [] h1
  let h3 := pyStripBraces h2
  let h4 := pyReplace ['-'] [] h3
  h4.length == 32 &&
    (match pyIntHex h4 with
     | some v => decide (0 ≤ v ∧ v < (2 : Int) ^ 128)
     | none => false)

/-- Embeds `helpers.validate_wallet_id`: `uuid.UUID(id_string)` inside
`try/except ValueError`, returning the input string itself (not a
normalized form) on success and raising 400 on failure. -/
def validate_wallet_id (id_string : PyStr) : Except Nat PyStr :=
  if pyUuidOk id_string then .ok id_string else .error 400

deriving instance DecidableEq for Except

/-- A value bound as a BigQuery `ScalarQueryParameter`
(INT64 / BOOL / STRING / TIMESTAMP). -/
inductive SqlValue
  | int : Int → SqlValue
  | bool : Bool → SqlValue
  | str : PyStr → SqlValue
  | ts : Nat → SqlValue
deriving DecidableEq, Repr

/-- One call to `client.query`: the SQL text handed to the backend plus
the named parameters bound through the job config. -/
structure SqlJob where
  text : String
  params : List (String × SqlValue)
deriving DecidableEq, Repr

/-- One stored wallet row (table schema
`id, address, score, is_active, created_at, last_updated`). -/
structure Row where
  id : PyStr
  address : PyStr
  score : Int
  is_active : Bool
  created_at : Nat
  last_updated : Nat
deriving DecidableEq, Repr

/-- Embeds `models.WalletCreate`: the create/bulk-create request body. -/
structure WalletCreate where
  address : PyStr
  score : Int
  is_active : Bool
deriving DecidableEq, Repr

/-- Embeds `models.WalletUpdate`: the partial-update request body. -/
structure WalletUpdate where
  score : Option Int
  is_active : Option Bool
deriving DecidableEq, Repr

/-- Result of one route handler: HTTP-level outcome, table contents after
the call, and the SQL jobs issued, in order. -/
structure Outcome (α : Type) where
  result : Except Nat α
  db : List Row
  queries : List SqlJob
deriving Repr, DecidableEq

/-- Embeds `helpers.build_wallet_query_conditions`: WHERE-clause text plus the
named-parameter map; the score range is always present, the
`is_active` condition only under `active_only`. -/
def build_wallet_query_conditions (active_only : Bool) (min_score max_score : Int) :
    String × List (String × SqlValue) :=
  let conditions : List String :=
    ["score >= @min_score AND score <= @max_score"] ++
      (if active_only then ["is_active = @is_active"] else [])
  let params : List (String × SqlValue) :=
    [("min_score", .int min_score), ("max_score", .int max_score)] ++
      (if active_only then [("is_active", .bool true)] else [])
  let where_clause :=
    if conditions.isEmpty then "1=1" else String.intercalate " AND " conditions
  (where_clause, params)

/-- Embeds `helpers.build_sort_clause`: unrecognized sort fields fall back to
`created_at`; direction is `ASC` exactly for `sort_order == 1`. -/
def build_sort_clause (sort_by : String) (sort_order : Int) : String :=
  let valid_sort_fields : List String :=
    ["created_at", "score", "address", "last_updated", "is_active"]
  let sb := if sort_by ∈ valid_sort_fields then sort_by else "created_at"
  let order := if sort_order == 1 then "ASC" else "DESC"
  "ORDER BY " ++ sb ++ " " ++ order

/-- The query job built by `wallets.get_wallets` (the JSON list endpoint):
the f-string interpolates only the table id, the WHERE clause from
`build_wallet_query_conditions` and the sort clause; `limit` and `offset`
are appended to the parameter map. -/
def get_wallets_query (tableId : String) (active_only : Bool)
    (min_score max_score limit offset : Int) (sort_by : String) (sort_order : Int) :
    SqlJob :=
  let where_clause := (build_wallet_query_conditions active_only min_score max_score).1
  let params := (build_wallet_query_conditions active_only min_score max_score).2
  let sort_clause := build_sort_clause sort_by sort_order
  let query :=
    "\n        SELECT id, address, score, is_active, created_at, last_updated\n        FROM `"
      ++ tableId ++ "`\n        WHERE " ++ where_clause ++ "\n        "
      ++ sort_clause ++ "\n        LIMIT @limit OFFSET @offset\n    "
  ⟨query, params ++ [("limit", .int limit), ("offset", .int offset)]⟩

/-- The SQL text built by `frontend.get_wallets_html` (the HTML list
endpoint): every value and the raw `sort_by` are f-string-interpolated
directly into the query text, and no parameter is bound. -/
def get_wallets_html_query (tableId : String) (active_only : Bool)
    (min_score max_score limit offset : Int) (sort_by : String) (sort_order : Int) :
    String :=
  let where_conditions : List String :=
    ["score >= " ++ toString min_score, "score <= " ++ toString max_score] ++
      (if active_only then ["is_active = TRUE"] else [])
  let where_clause := String.intercalate " AND " where_conditions
  let order_direction := if sort_order == -1 then "DESC" else "ASC"
  "\n            SELECT id, address, score, is_active, created_at, last_updated\n            FROM `"
    ++ tableId ++ "`\n            WHERE " ++ where_clause ++ "\n            ORDER BY "
    ++ sort_by ++ " " ++ order_direction ++ "\n            LIMIT "
    ++ toString limit ++ " OFFSET " ++ toString offset ++ "\n        "

/-- Text of the duplicate-address existence check in `wallets.create_wallet`. -/
def checkAddressQueryText (tableId : String) : String :=
  "\n        SELECT COUNT(*) as count\n        FROM `" ++ tableId ++
    "`\n        WHERE address = @address\n    "

/-- Text of the INSERT statement in `wallets.create_wallet`. -/
def insertQueryText (tableId : String) : String :=
  "\n            INSERT INTO `" ++ tableId ++
    "` \n            (id, address, score, is_active, created_at, last_updated)\n            VALUES (@id, @address, @score, @is_active, @created_at, @last_updated)\n        "

/-- HTTP status of the create route: the decorator `status_code=201`
applies to the success response, errors keep their own status. -/
def create_status {α : Type} : Except Nat α → Nat
  | .ok _ => 201
  | .error e => e

/-- Embeds `wallets.create_wallet`: validate the address, run the existence
check (`COUNT(*) WHERE address = @address` over the stored rows), reject
duplicates with 400, otherwise insert a new row carrying the generated id
`genId` (the `uuid.uuid4()` value) and `now` as both timestamps, and
return the created wallet. -/
def create_wallet (tableId : String) (genId : PyStr) (now : Nat)
    (d : WalletCreate) (db : List Row) : Outcome Row :=
  match validate_ethereum_address d.address with
  | .error e => ⟨.error e, db, []⟩
  | .ok va =>
    let checkJob : SqlJob := ⟨checkAddressQueryText tableId, [("address", .str va)]⟩
    let count := (db.filter (fun r => r.address == va)).length
    if count > 0 then ⟨.error 400, db, [checkJob]⟩
    else
      let row : Row := ⟨genId, va, d.score, d.is_active, now, now⟩
      ⟨.ok row, db ++ [row],
        [checkJob,
         ⟨insertQueryText tableId,
          [("id", .str genId), ("address", .str va), ("score", .int d.score),
           ("is_active", .bool d.is_active), ("created_at", .ts now),
           ("last_updated", .ts now)]⟩]⟩

/-- Text of the single-row lookup in `wallets.get_wallet`. -/
def getWalletQueryText (tableId : String) : String :=
  "\n        SELECT id, address, score, is_active, created_at, last_updated\n        FROM `"
    ++ tableId ++ "`\n        WHERE id = @wallet_id\n        LIMIT 1\n    "

/-- Embeds `wallets.get_wallet`: validate the id, then a single-row lookup
(`WHERE id = @wallet_id LIMIT 1`); 404 when no row matches. -/
def get_wallet (tableId : String) (wallet_id : PyStr) (db : List Row) : Outcome Row :=
  match validate_wallet_id wallet_id with
  | .error e => ⟨.error e, db, []⟩
  | .ok vid =>
    let job : SqlJob := ⟨getWalletQueryText tableId, [("wallet_id", .str vid)]⟩
    match db.find? (fun r => r.id == vid) with
    | none => ⟨.error 404, db, [job]⟩
    | some r => ⟨.ok r, db, [job]⟩

/-- Text of the existence check in `wallets.update_wallet` (same SELECT
shape as the get route, written out separately in the source). -/
def updateCheckQueryText (tableId : String) : String :=
  "\n        SELECT id, address, score, is_active, created_at, last_updated\n        FROM `"
    ++ tableId ++ "`\n        WHERE id = @wallet_id\n        LIMIT 1\n    "

/-- Text of the dynamic UPDATE statement in `wallets.update_wallet`: the
SET list carries `score` and `is_active` only when present in the patch,
and always ends with `last_updated`. -/
def updateQueryText (tableId : String) (u : WalletUpdate) : String :=
  let update_fields : List String :=
    (if u.score.isSome then ["score = @new_score"] else []) ++
      (if u.is_active.isSome then ["is_active = @new_is_active"] else []) ++
      ["last_updated = @last_updated"]
  "\n            UPDATE `" ++ tableId ++ "`\n            SET " ++
    String.intercalate ", " update_fields ++
    "\n            WHERE id = @wallet_id\n        "

/-- Embeds `wallets.update_wallet`: validate the id, look the row up, return it
unchanged when the patch carries no field (the `if not update_fields`
early return — no UPDATE is issued and `last_updated` is not touched),
otherwise apply the present fields plus `last_updated = now` and issue
the UPDATE. -/
def update_wallet (tableId : String) (wallet_id : PyStr) (u : WalletUpdate)
    (now : Nat) (db : List Row) : Outcome Row :=
  match validate_wallet_id wallet_id with
  | .error e => ⟨.error e, db, []⟩
  | .ok vid =>
    let checkJob : SqlJob := ⟨updateCheckQueryText tableId, [("wallet_id", .str vid)]⟩
    match db.find? (fun r => r.id == vid) with
    | none => ⟨.error 404, db, [checkJob]⟩
    | some existing =>
      if u.score.isNone && u.is_active.isNone then
        ⟨.ok existing, db, [checkJob]⟩
      else
        let updated : Row :=
          { existing with
            score := u.score.getD existing.score,
            is_active := u.is_active.getD existing.is_active,
            last_updated := now }
        let db' := db.map (fun r =>
          if r.id == vid then
            { r with
              score := u.score.getD r.score,
              is_active := u.is_active.getD r.is_active,
              last_updated := now }
          else r)
        ⟨.ok updated, db',
          [checkJob,
           ⟨updateQueryText tableId u,
            [("wallet_id", .str vid)] ++
              (match u.score with
               | some sc => [("new_score", SqlValue.int sc)]
               | none => []) ++
              (match u.is_active with
               | some b => [("new_is_active", SqlValue.bool b)]
               | none => []) ++
              [("last_updated", SqlValue.ts now)]⟩]⟩

/-- The response of the delete route: the confirmation message together
with the deleted record's last known state. -/
structure DeleteResponse where
  message : String
  deleted_wallet : Row
deriving DecidableEq, Repr

/-- Text of the pre-delete lookup in `wallets.delete_wallet` (same SELECT
shape as the get route, written out separately in the source). -/
def deleteGetQueryText (tableId : String) : String :=
  "\n        SELECT id, address, score, is_active, created_at, last_updated\n        FROM `"
    ++ tableId ++ "`\n        WHERE id = @wallet_id\n        LIMIT 1\n    "

/-- Text of the DELETE statement in `wallets.delete_wallet`. -/
def deleteQueryText (tableId : String) : String :=
  "\n            DELETE FROM `" ++ tableId ++
    "`\n            WHERE id = @wallet_id\n        "

/-- Embeds `wallets.delete_wallet`: validate the id, fetch the row to
return it, 404 when absent, otherwise issue the DELETE (reusing the same
`@wallet_id` job config) and return the deleted record with a message. -/
def delete_wallet (tableId : String) (wallet_id : PyStr) (db : List Row) :
    Outcome DeleteResponse :=
  match validate_wallet_id wallet_id with
  | .error e => ⟨.error e, db, []⟩
  | .ok vid =>
    let getJob : SqlJob := ⟨deleteGetQueryText tableId, [("wallet_id", .str vid)]⟩
    match db.find? (fun r => r.id == vid) with
    | none => ⟨.error 404, db, [getJob]⟩
    | some w =>
      ⟨.ok ⟨"Wallet deleted successfully", w⟩,
       db.filter (fun r => !(r.id == vid)),
       [getJob, ⟨deleteQueryText tableId, [("wallet_id", .str vid)]⟩]⟩

/-- Sequential address validation at the head of
`wallets.bulk_create_wallets`: the first invalid address aborts. -/
def validateAllAddresses : List WalletCreate → Except Nat (List PyStr)
  | [] => .ok []
  | w :: ws =>
    match validate_ethereum_address w.address with
    | .error e => .error e
    | .ok va =>
      match validateAllAddresses ws with
      | .error e => .error e
      | .ok vas => .ok (va :: vas)

/-- Text of the batch existence check in `wallets.bulk_create_wallets`
(`WHERE address IN (@addr_0, …)`). -/
def bulkCheckQueryText (tableId : String) (n : Nat) : String :=
  let placeholders :=
    String.intercalate "," ((List.range n).map (fun i => "@addr_" ++ toString i))
  "\n            SELECT address\n            FROM `" ++ tableId ++
    "`\n            WHERE address IN (" ++ placeholders ++ ")\n        "

/-- Embeds `wallets.bulk_create_wallets`: reject batches over 100 before any
validation; validate every address; check the validated addresses against
the *stored* rows in one round trip and reject with 400 when any already
exists; otherwise insert one row per entry, all stamped with the same
`now`, with ids drawn from the generator `gen` (one `uuid.uuid4()` per
row).  An empty batch short-circuits with no query. -/
def bulk_create_wallets (tableId : String) (gen : Nat → PyStr) (now : Nat)
    (wallets : List WalletCreate) (db : List Row) : Outcome (List PyStr) :=
  if wallets.length > 100 then ⟨.error 400, db, []⟩
  else
    match validateAllAddresses wallets with
    | .error e => ⟨.error e, db, []⟩
    | .ok validated =>
      if validated.isEmpty then ⟨.ok [], db, []⟩
      else
        let checkJob : SqlJob :=
          ⟨bulkCheckQueryText tableId validated.length,
           validated.enum.map (fun p => ("addr_" ++ toString p.1, SqlValue.str p.2))⟩
        let existing :=
          (db.filter (fun r => validated.contains r.address)).map (fun r => r.address)
        if validated.any (fun a => existing.contains a) then
          ⟨.error 400, db, [checkJob]⟩
        else
          let rows : List Row :=
            (wallets.zip validated).enum.map (fun p =>
              ⟨gen p.1, p.2.2, p.2.1.score, p.2.1.is_active, now, now⟩)
          ⟨.ok (rows.map (fun r => r.id)), db ++ rows, [checkJob]⟩

/-- A valid address used as concrete input: `0x` followed by 40 `a`s. -/
def goodAddr : PyStr := '0' :: 'x' :: List.replicate 40 'a'

/-- A second valid address: `0x` followed by 40 `b`s. -/
def goodAddrB : PyStr := '0' :: 'x' :: List.replicate 40 'b'

/-- A wallet id in the canonical hyphenated UUID spelling. -/
def uuidCanon : PyStr := "12345678-1234-5678-1234-567812345678".toList

/-- The same UUID as 32 hex digits without hyphens. -/
def uuidNoHyph : PyStr := "12345678123456781234567812345678".toList

/-- The same UUID wrapped in braces. -/
def uuidBraced : PyStr := Char.ofNat 123 :: (uuidCanon ++ [Char.ofNat 125])

/-- The same UUID with a `urn:uuid:` prefix. -/
def uuidUrn : PyStr := "urn:uuid:12345678-1234-5678-1234-567812345678".toList

/-- A 32-character id whose first character is a no-break space (U+00A0):
the transform turns it into an ASCII space that the numeric parser
strips, so CPython's `uuid.UUID` accepts it. -/
def uuidNbspace : PyStr :=
  Char.ofNat 160 :: "2345678123456781234567812345678".toList

/-- A 32-character id whose first character is the fullwidth digit one
(U+FF11): the transform maps it to the ASCII digit, so CPython's
`uuid.UUID` accepts it. -/
def uuidFullwidth : PyStr :=
  Char.ofNat 65297 :: "2345678123456781234567812345678".toList

/-- A concrete stored row used by the update/delete examples. -/
def row0 : Row := ⟨uuidNoHyph, goodAddr, 5, true, 10, 10⟩

/-- A second stored row, used as the pre-existing conflict in the
bulk-create examples. -/
def rowA : Row := ⟨['r'], goodAddr, 3, true, 1, 1⟩

/-- Concrete id generator standing in for `uuid.uuid4()` in examples. -/
def genW : Nat → PyStr := fun i => List.replicate (i + 1) 'w'

/-- The row returned by the first create in the duplicate-create example. -/
def wRow : Row := ⟨['g'], goodAddr, 5, true, 7, 7⟩

set_option maxRecDepth 10000

/-- Round trip: `Char.ofNat` inverts `Char.toNat`. -/
theorem char_ofNat_toNat (c : Char) : Char.ofNat c.toNat = c := by
  unfold Char.ofNat
  rw [dif_pos (show c.toNat.isValidChar from c.valid)]
  apply Char.ext
  apply UInt32.ext
  simp [Char.ofNatAux, Char.toNat, UInt32.toNat, BitVec.toNat_ofNatLt]

/-- For code points below the surrogate range, `Char.toNat` inverts
`Char.ofNat`. -/
theorem char_toNat_ofNat {n : Nat} (h : n < 55296) : (Char.ofNat n).toNat = n := by
  unfold Char.ofNat
  rw [dif_pos (Or.inl h)]
  simp [Char.ofNatAux, Char.toNat, UInt32.toNat, BitVec.toNat_ofNatLt]

/-- Uppercasing a hexadecimal digit keeps it hexadecimal and does not
change its lowercase image. -/
theorem hex_upper_cases {c : Char} (h : isPyHexDigit c = true) :
    isPyHexDigit (pyUpperChar c) = true ∧ pyLowerChar (pyUpperChar c) = pyLowerChar c := by
  have h' := h
  unfold isPyHexDigit at h'
  simp only [Bool.or_eq_true, Bool.and_eq_true, decide_eq_true_eq] at h'
  unfold pyUpperChar
  rcases h' with (⟨h1, h2⟩ | ⟨h1, h2⟩) | ⟨h1, h2⟩
  · rw [if_neg (by simp only [Bool.and_eq_true, decide_eq_true_eq]; omega)]
    exact ⟨h, rfl⟩
  · rw [if_pos (by simp only [Bool.and_eq_true, decide_eq_true_eq]; omega)]
    have ht : (Char.ofNat (c.toNat - 32)).toNat = c.toNat - 32 :=
      char_toNat_ofNat (by omega)
    constructor
    · unfold isPyHexDigit
      simp only [ht, Bool.or_eq_true, Bool.and_eq_true, decide_eq_true_eq]
      right; omega
    · unfold pyLowerChar
      rw [if_pos (by simp only [ht, Bool.and_eq_true, decide_eq_true_eq]; omega),
        if_neg (by simp only [Bool.and_eq_true, decide_eq_true_eq]; omega), ht]
      have harith : c.toNat - 32 + 32 = c.toNat := by omega
      rw [harith, char_ofNat_toNat]
  · rw [if_neg (by simp only [Bool.and_eq_true, decide_eq_true_eq]; omega)]
    exact ⟨h, rfl⟩

/-- Inversion for a successful address validation: the input starts with
the two-character prefix, has length 42, its tail is hexadecimal, and the
result is the lowercase image. -/
theorem validate_addr_ok_iff (a r : PyStr) :
    validate_ethereum_address a = .ok r ↔
      (startsWith0x a = true ∧ a.length = 42 ∧ (a.drop 2).all isPyHexDigit = true ∧
        r = a.map pyLowerChar) := by
  rcases a with _ | ⟨c0, _ | ⟨c1, rest⟩⟩
  · simp [validate_ethereum_address, startsWith0x]
  · simp [validate_ethereum_address, startsWith0x]
  · by_cases h0 : (c0 == '0' && c1 == 'x') = true
    · by_cases hl : rest.length = 40
      · by_cases hx : rest.all isPyHexDigit = true
        · simp [validate_ethereum_address, startsWith0x, ethRegexMatch, h0, hl, hx,
            eq_comm]
        · simp [validate_ethereum_address, startsWith0x, ethRegexMatch, h0, hl, hx]
      · have hne : ((c0 :: c1 :: rest).length == 42) = false := by
          simp; omega
        have hc : (!startsWith0x (c0 :: c1 :: rest) ||
            (c0 :: c1 :: rest).length != 42) = true := by
          simp [hne]
          exact Or.inr hl
        have herr : validate_ethereum_address (c0 :: c1 :: rest) = .error 400 := by
          unfold validate_ethereum_address
          rw [if_pos hc]
        rw [herr]
        constructor
        · intro hcontra; cases hcontra
        · rintro ⟨-, hlen, -, -⟩
          have : rest.length = 40 := by simp at hlen; omega
          exact absurd this hl
    · simp [validate_ethereum_address, startsWith0x, h0]

/-- The address validator either accepts with the lowercase image or
rejects with status 400. -/
theorem validate_addr_cases (a : PyStr) :
    validate_ethereum_address a = .ok (a.map pyLowerChar) ∨
      validate_ethereum_address a = .error 400 := by
  unfold validate_ethereum_address
  split
  · right; rfl
  · split
    · right; rfl
    · left; rfl

/-- The WHERE clause text of the list query conditions depends only on
the `active_only` flag and is one of two fixed strings. -/
theorem bwqc_fst (ao : Bool) (mn mx : Int) :
    (build_wallet_query_conditions ao mn mx).1 =
      if ao then "score >= @min_score AND score <= @max_score AND is_active = @is_active"
      else "score >= @min_score AND score <= @max_score" := by
  cases ao <;> rfl

/-- Claim C1: the claim states that for every list request the SQL text is
independent of the user-supplied values, with min/max score, is_active,
limit and offset travelling only through bound parameters.  This holds for
the JSON list endpoint (conjuncts 1 and 2: the WHERE clause is one of two
fixed strings selected by `active_only`, and the query text of
`get_wallets` agrees on any two requests differing only in those values),
but the HTML list endpoint `get_wallets_html` interpolates the values into
the SQL text, so two requests differing only in `min_score` hand different
query strings to the backend (conjunct 3). -/
theorem list_query_text_injection :
    (∀ ao mn mx, (build_wallet_query_conditions ao mn mx).1 =
      if ao then "score >= @min_score AND score <= @max_score AND is_active = @is_active"
      else "score >= @min_score AND score <= @max_score") ∧
    (∀ tableId ao sb so mn1 mx1 l1 o1 mn2 mx2 l2 o2,
      (get_wallets_query tableId ao mn1 mx1 l1 o1 sb so).text =
        (get_wallets_query tableId ao mn2 mx2 l2 o2 sb so).text) ∧
    get_wallets_html_query "p.d.t" false 0 10 10 0 "created_at" (-1) ≠
      get_wallets_html_query "p.d.t" false 5 10 10 0 "created_at" (-1) := by
  refine ⟨bwqc_fst, ?_, by decide⟩
  intro tableId ao sb so mn1 mx1 l1 o1 mn2 mx2 l2 o2
  simp [get_wallets_query, bwqc_fst]

/-- Claim C8: an unrecognized sort field silently falls back to
`created_at`; a recognized field is used as given; the direction is `ASC`
exactly when `sort_order = 1` and `DESC` otherwise. -/
theorem sort_clause_fallback (sb : String) (so : Int) :
    (sb ∉ (["created_at", "score", "address", "last_updated", "is_active"] : List String) →
      build_sort_clause sb so =
        "ORDER BY created_at " ++ (if so = 1 then "ASC" else "DESC")) ∧
    (sb ∈ (["created_at", "score", "address", "last_updated", "is_active"] : List String) →
      build_sort_clause sb so =
        "ORDER BY " ++ sb ++ " " ++ (if so = 1 then "ASC" else "DESC")) := by
  constructor <;> intro h <;> simp [build_sort_clause, h, beq_iff_eq]

/-- Witness for claim C8 at the unrecognized field `bogus` with ascending
order. -/
theorem sort_clause_fallback_app :
    build_sort_clause "bogus" 1 =
      "ORDER BY created_at " ++ (if (1 : Int) = 1 then "ASC" else "DESC") :=
  (sort_clause_fallback "bogus" 1).1 (by decide)

/-- Claim C10: `validate_wallet_id` accepts exactly the strings CPython's
`uuid.UUID` constructor accepts (conjunct 1, against the embedded parser
model `pyUuidOk`, Unicode 15.0 tables), returns the accepted input
verbatim (conjunct 2), the parser accepts the canonical, unhyphenated,
braced and `urn:uuid:` spellings as well as ids carrying a Unicode space
or a Unicode decimal digit (conjunct 3), every rejected string makes the
get, update and delete routes fail with 400 before any storage query
(conjunct 4), and two accepted spellings of the same UUID stay distinct
strings (conjunct 5). -/
theorem wallet_id_verbatim_uuid :
    (∀ s, (∃ r, validate_wallet_id s = .ok r) ↔ pyUuidOk s = true) ∧
    (∀ s r, validate_wallet_id s = .ok r → r = s) ∧
    (pyUuidOk uuidCanon = true ∧ pyUuidOk uuidNoHyph = true ∧
      pyUuidOk uuidBraced = true ∧ pyUuidOk uuidUrn = true ∧
      pyUuidOk uuidNbspace = true ∧ pyUuidOk uuidFullwidth = true) ∧
    (∀ tableId s db (u : WalletUpdate) (now : Nat), pyUuidOk s = false →
      get_wallet tableId s db = ⟨.error 400, db, []⟩ ∧
      update_wallet tableId s u now db = ⟨.error 400, db, []⟩ ∧
      delete_wallet tableId s db = ⟨.error 400, db, []⟩) ∧
    (uuidCanon ≠ uuidNoHyph ∧ validate_wallet_id uuidCanon = .ok uuidCanon ∧
      validate_wallet_id uuidNoHyph = .ok uuidNoHyph) := by
  refine ⟨?_, ?_, by decide, ?_, by decide⟩
  · intro s
    by_cases h : pyUuidOk s = true <;> simp [validate_wallet_id, h]
  · intro s r h
    unfold validate_wallet_id at h
    split at h
    · cases h; rfl
    · cases h
  · intro tableId s db u now h
    refine ⟨?_, ?_, ?_⟩
    · simp [get_wallet, validate_wallet_id, h]
    · simp [update_wallet, validate_wallet_id, h]
    · simp [delete_wallet, validate_wallet_id, h]

/-- Claim C6: the address validator accepts exactly the strings of length
42 starting with the two-character hex prefix whose remaining 40
characters are hexadecimal digits, returning the lowercase form
(conjunct 1); every other string is rejected with 400 (conjunct 2), and a
create request carrying such an address is rejected with 400 before any
storage access: no query is issued and the table is untouched
(conjunct 3). -/
theorem validate_address_exact_charset (s : PyStr) :
    ((s.length = 42 ∧ startsWith0x s = true ∧ (s.drop 2).all isPyHexDigit = true) →
        validate_ethereum_address s = .ok (s.map pyLowerChar)) ∧
    (¬ (s.length = 42 ∧ startsWith0x s = true ∧ (s.drop 2).all isPyHexDigit = true) →
        validate_ethereum_address s = .error 400) ∧
    (∀ tableId genId now (d : WalletCreate) db, d.address = s →
      ¬ (s.length = 42 ∧ startsWith0x s = true ∧ (s.drop 2).all isPyHexDigit = true) →
      create_wallet tableId genId now d db = ⟨.error 400, db, []⟩) := by
  have hrej : ¬ (s.length = 42 ∧ startsWith0x s = true ∧
      (s.drop 2).all isPyHexDigit = true) →
      validate_ethereum_address s = .error 400 := by
    intro hn
    rcases validate_addr_cases s with hok | herr
    · exfalso
      obtain ⟨h1, h2, h3, _⟩ := (validate_addr_ok_iff s (s.map pyLowerChar)).mp hok
      exact hn ⟨h2, h1, h3⟩
    · exact herr
  refine ⟨?_, hrej, ?_⟩
  · intro ⟨h1, h2, h3⟩
    exact (validate_addr_ok_iff s (s.map pyLowerChar)).mpr ⟨h2, h1, h3, rfl⟩
  · intro tableId genId now d db hd hn
    have herr : validate_ethereum_address d.address = .error 400 := hd ▸ hrej hn
    simp [create_wallet, herr]

/-- Witness for claim C6 at a concrete well-formed address. -/
theorem validate_address_exact_charset_app :
    validate_ethereum_address goodAddr = .ok (goodAddr.map pyLowerChar) :=
  (validate_address_exact_charset goodAddr).1 (by decide)

/-- Claim C5 counterexample: uppercasing the whole 42-character address,
prefix included, is rejected (the prefix check demands a lowercase `x`),
so the validator does not return the same result on the uppercased
string. -/
theorem upper_address_rejected :
    validate_ethereum_address goodAddr = .ok goodAddr ∧
    validate_ethereum_address (goodAddr.map pyUpperChar) = .error 400 ∧
    validate_ethereum_address (goodAddr.map pyUpperChar) ≠
      validate_ethereum_address goodAddr := by
  exact ⟨by decide, by decide, by decide⟩

/-- Claim C5 amended: for every address that passes validation,
uppercasing only the 40 hex digits (keeping the two-character prefix as
is) still validates and yields the same lowercase-normalized result. -/
theorem hex_digits_case_insensitive (a r : PyStr)
    (h : validate_ethereum_address a = .ok r) :
    validate_ethereum_address (a.take 2 ++ (a.drop 2).map pyUpperChar) = .ok r := by
  obtain ⟨h0, hlen, hhex, hr⟩ := (validate_addr_ok_iff a r).mp h
  rcases a with _ | ⟨c0, _ | ⟨c1, rest⟩⟩
  · simp [startsWith0x] at h0
  · simp [startsWith0x] at h0
  · simp only [startsWith0x, Bool.and_eq_true, beq_iff_eq] at h0
    obtain ⟨rfl, rfl⟩ := h0
    have hall : ∀ x ∈ rest, isPyHexDigit x = true := by
      intro x hx
      exact List.all_eq_true.mp (by simpa using hhex) x hx
    apply (validate_addr_ok_iff _ _).mpr
    refine ⟨rfl, ?_, ?_, ?_⟩
    · simp at hlen ⊢
      omega
    · simp only [List.take, List.drop, List.cons_append, List.nil_append,
        List.all_cons, List.all_eq_true, List.mem_map]
      intro x hx
      obtain ⟨y, hy, rfl⟩ : ∃ y ∈ rest, pyUpperChar y = x := by simpa using hx
      exact (hex_upper_cases (hall y hy)).1
    · rw [hr]
      show List.map pyLowerChar ('0' :: 'x' :: rest) =
        List.map pyLowerChar (('0' :: 'x' :: rest).take 2 ++
          (('0' :: 'x' :: rest).drop 2).map pyUpperChar)
      simp only [List.take, List.drop, List.cons_append, List.nil_append,
        List.map_cons, List.map_map]
      have hcomp : List.map (pyLowerChar ∘ pyUpperChar) rest = List.map pyLowerChar rest :=
        List.map_congr_left (fun x hx => (hex_upper_cases (hall x hx)).2)
      rw [hcomp]

/-- Witness for claim C5 amended at a concrete accepted address. -/
theorem hex_digits_case_insensitive_app :
    validate_ethereum_address (goodAddr.take 2 ++ (goodAddr.drop 2).map pyUpperChar) =
      .ok goodAddr :=
  hex_digits_case_insensitive goodAddr goodAddr (by decide)

/-- Claim C2: a create whose address validates and is not already stored
assigns the freshly generated id, stamps both timestamps with the same
instant, persists exactly one new row, issues the existence check and the
insert, and succeeds with HTTP status 201. -/
theorem create_wallet_creates (tableId : String) (genId : PyStr) (now : Nat)
    (d : WalletCreate) (db : List Row) (va : PyStr)
    (hv : validate_ethereum_address d.address = .ok va)
    (hfresh : ∀ r ∈ db, r.address ≠ va) :
    create_wallet tableId genId now d db =
      ⟨.ok ⟨genId, va, d.score, d.is_active, now, now⟩,
       db ++ [⟨genId, va, d.score, d.is_active, now, now⟩],
       [⟨checkAddressQueryText tableId, [("address", .str va)]⟩,
        ⟨insertQueryText tableId,
         [("id", .str genId), ("address", .str va), ("score", .int d.score),
          ("is_active", .bool d.is_active), ("created_at", .ts now),
          ("last_updated", .ts now)]⟩]⟩ ∧
    create_status (create_wallet tableId genId now d db).result = 201 := by
  have hfilter : db.filter (fun r => r.address == va) = [] := by
    rw [List.filter_eq_nil_iff]
    intro r hr
    simpa using hfresh r hr
  have hmain : create_wallet tableId genId now d db =
      ⟨.ok ⟨genId, va, d.score, d.is_active, now, now⟩,
       db ++ [⟨genId, va, d.score, d.is_active, now, now⟩],
       [⟨checkAddressQueryText tableId, [("address", .str va)]⟩,
        ⟨insertQueryText tableId,
         [("id", .str genId), ("address", .str va), ("score", .int d.score),
          ("is_active", .bool d.is_active), ("created_at", .ts now),
          ("last_updated", .ts now)]⟩]⟩ := by
    simp [create_wallet, hv, hfilter]
  refine ⟨hmain, ?_⟩
  rw [hmain]
  rfl

/-- Witness for claim C2 on an empty table. -/
theorem create_wallet_creates_app :
    create_wallet "p.d.t" ['g'] 7 ⟨goodAddr, 5, true⟩ [] =
      ⟨.ok wRow, [wRow],
       [⟨checkAddressQueryText "p.d.t", [("address", .str goodAddr)]⟩,
        ⟨insertQueryText "p.d.t",
         [("id", .str ['g']), ("address", .str goodAddr), ("score", .int 5),
          ("is_active", .bool true), ("created_at", .ts 7),
          ("last_updated", .ts 7)]⟩]⟩ :=
  (create_wallet_creates "p.d.t" ['g'] 7 ⟨goodAddr, 5, true⟩ [] goodAddr
    (by decide) (by simp)).1

/-- Inversion of a successful create: the table grew by exactly the
returned row, and the requested address validates to that row's address. -/
theorem create_ok_inv {tableId : String} {genId : PyStr} {now : Nat}
    {d : WalletCreate} {db db1 : List Row} {w : Row} {qs : List SqlJob}
    (h : create_wallet tableId genId now d db = ⟨.ok w, db1, qs⟩) :
    db1 = db ++ [w] ∧ validate_ethereum_address d.address = .ok w.address := by
  unfold create_wallet at h
  cases hv : validate_ethereum_address d.address with
  | error e =>
    rw [hv] at h
    simp at h
  | ok va =>
    rw [hv] at h
    by_cases hc : (db.filter (fun r => r.address == va)).length > 0
    · simp [hc] at h
    · simp only [hc, if_false, Outcome.mk.injEq, Except.ok.injEq] at h
      obtain ⟨hw, hdb, -⟩ := h
      subst hw
      subst hdb
      exact ⟨rfl, rfl⟩

/-- Claim C7: after a successful create, a second create whose address
normalizes to the stored row's address is rejected with 400 by the
pre-insert existence query (the only query issued), and the table is
unchanged: no second row is inserted. -/
theorem create_duplicate_rejected (tableId : String) (g1 g2 : PyStr) (n1 n2 : Nat)
    (d1 d2 : WalletCreate) (db db1 : List Row) (w : Row) (qs : List SqlJob)
    (h1 : create_wallet tableId g1 n1 d1 db = ⟨.ok w, db1, qs⟩)
    (h2 : validate_ethereum_address d2.address = .ok w.address) :
    create_wallet tableId g2 n2 d2 db1 =
      ⟨.error 400, db1,
       [⟨checkAddressQueryText tableId, [("address", .str w.address)]⟩]⟩ := by
  obtain ⟨hdb1, -⟩ := create_ok_inv h1
  subst hdb1
  have hpos : ((db ++ [w]).filter (fun r => r.address == w.address)).length > 0 := by
    simp [List.filter_append]
  simp [create_wallet, h2, hpos]

/-- Witness for claim C7: create the same address twice from an empty
table. -/
theorem create_duplicate_rejected_app :
    create_wallet "p.d.t" ['h'] 8 ⟨goodAddr, 4, false⟩ [wRow] =
      ⟨.error 400, [wRow],
       [⟨checkAddressQueryText "p.d.t", [("address", .str wRow.address)]⟩]⟩ :=
  create_duplicate_rejected "p.d.t" ['g'] ['h'] 7 8 ⟨goodAddr, 5, true⟩
    ⟨goodAddr, 4, false⟩ [] [wRow] wRow
    [⟨checkAddressQueryText "p.d.t", [("address", .str goodAddr)]⟩,
     ⟨insertQueryText "p.d.t",
      [("id", .str ['g']), ("address", .str goodAddr), ("score", .int 5),
       ("is_active", .bool true), ("created_at", .ts 7), ("last_updated", .ts 7)]⟩]
    (by decide) (by decide)

/-- Claim C9: an update patch carrying only a score leaves the record's
is_active, address, id and created_at unchanged, sets last_updated to the
request instant (which is at least the prior last_updated under a
forward-moving clock), and rewrites only the matching stored row. -/
theorem update_score_only_frame (tableId : String) (wid : PyStr) (s : Int)
    (now : Nat) (db : List Row) (w0 : Row)
    (hv : pyUuidOk wid = true)
    (hfind : db.find? (fun r => r.id == wid) = some w0)
    (hclock : w0.last_updated ≤ now) :
    ∃ w, (update_wallet tableId wid ⟨some s, none⟩ now db).result = .ok w ∧
      w.is_active = w0.is_active ∧ w.address = w0.address ∧ w.id = w0.id ∧
      w.created_at = w0.created_at ∧ w0.last_updated ≤ w.last_updated ∧
      (update_wallet tableId wid ⟨some s, none⟩ now db).db =
        db.map (fun r =>
          if r.id == wid then { r with score := s, last_updated := now } else r) := by
  have hval : validate_wallet_id wid = .ok wid := by
    simp [validate_wallet_id, hv]
  refine ⟨{ w0 with score := s, last_updated := now }, ?_, rfl, rfl, rfl, rfl, hclock, ?_⟩
  · simp [update_wallet, hval, hfind]
  · simp [update_wallet, hval, hfind]

/-- Witness for claim C9 at a concrete stored row. -/
theorem update_score_only_frame_app :
    ∃ w, (update_wallet "p.d.t" uuidNoHyph ⟨some 9, none⟩ 20 [row0]).result = .ok w ∧
      w.is_active = row0.is_active ∧ w.address = row0.address ∧ w.id = row0.id ∧
      w.created_at = row0.created_at ∧ row0.last_updated ≤ w.last_updated ∧
      (update_wallet "p.d.t" uuidNoHyph ⟨some 9, none⟩ 20 [row0]).db =
        [row0].map (fun r =>
          if r.id == uuidNoHyph then { r with score := 9, last_updated := 20 } else r) :=
  update_score_only_frame "p.d.t" uuidNoHyph 9 20 [row0] row0
    (by decide) (by decide) (by decide)

/-- Claim C4 counterexample: applying the empty patch (neither score nor
is_active) to an existing record returns the record with its prior
last_updated (10) even though the current time is 20 — last_updated is
not refreshed, no UPDATE is issued. -/
theorem empty_patch_keeps_last_updated :
    update_wallet "p.d.t" uuidNoHyph ⟨none, none⟩ 20 [row0] =
      ⟨.ok row0, [row0],
       [⟨updateCheckQueryText "p.d.t", [("wallet_id", .str uuidNoHyph)]⟩]⟩ ∧
    row0.last_updated = 10 ∧ (10 : Nat) ≠ 20 :=
  ⟨by decide, rfl, by decide⟩

/-- Claim C4 amended: whenever the patch carries at least one field (even
one equal to the stored value), the update refreshes last_updated to the
current time; the empty patch instead returns the record untouched. -/
theorem nonempty_patch_refreshes (tableId : String) (wid : PyStr)
    (u : WalletUpdate) (now : Nat) (db : List Row) (w0 : Row)
    (hu : u.score.isSome ∨ u.is_active.isSome)
    (hv : pyUuidOk wid = true)
    (hfind : db.find? (fun r => r.id == wid) = some w0) :
    ∃ w, (update_wallet tableId wid u now db).result = .ok w ∧
      w.last_updated = now := by
  have hval : validate_wallet_id wid = .ok wid := by
    simp [validate_wallet_id, hv]
  have hcond : (u.score.isNone && u.is_active.isNone) = false := by
    cases hs : u.score <;> cases ha : u.is_active <;> simp_all
  refine ⟨{ w0 with
    score := u.score.getD w0.score,
    is_active := u.is_active.getD w0.is_active,
    last_updated := now }, ?_, rfl⟩
  simp [update_wallet, hval, hfind, hcond]

/-- Witness for claim C4 amended: a same-value patch (score 5 on a row
whose score is already 5) still refreshes last_updated. -/
theorem nonempty_patch_refreshes_app :
    ∃ w, (update_wallet "p.d.t" uuidNoHyph ⟨some 5, none⟩ 20 [row0]).result = .ok w ∧
      w.last_updated = 20 :=
  nonempty_patch_refreshes "p.d.t" uuidNoHyph ⟨some 5, none⟩ 20 [row0] row0
    (Or.inl rfl) (by decide) (by decide)

/-- Claim C3 counterexample: a two-entry batch whose entries share one
address, run against an empty table, is not rejected: the batch succeeds
and both duplicate rows are persisted, contradicting the claimed
all-or-nothing Conflict for within-batch duplicates. -/
theorem bulk_within_batch_duplicate_inserted :
    (bulk_create_wallets "p.d.t" genW 7
        [⟨goodAddr, 1, true⟩, ⟨goodAddr, 2, true⟩] []).result =
      .ok [['w'], ['w', 'w']] ∧
    (bulk_create_wallets "p.d.t" genW 7
        [⟨goodAddr, 1, true⟩, ⟨goodAddr, 2, true⟩] []).db =
      [⟨['w'], goodAddr, 1, true, 7, 7⟩, ⟨['w', 'w'], goodAddr, 2, true, 7, 7⟩] ∧
    ([⟨['w'], goodAddr, 1, true, 7, 7⟩,
      ⟨['w', 'w'], goodAddr, 2, true, 7, 7⟩] : List Row) ≠ [] :=
  ⟨by decide, by decide, by decide⟩

/-- Claim C3 amended: for a batch of at most 100 entries whose addresses
all validate, if some entry's address duplicates an address already
stored, the whole batch is rejected with 400 after the single batch
existence query and zero records are persisted; a duplicate occurring
only inside the batch itself is not detected (see the counterexample). -/
theorem bulk_existing_duplicate_aborts (tableId : String) (gen : Nat → PyStr)
    (now : Nat) (wallets : List WalletCreate) (db : List Row)
    (validated : List PyStr)
    (hlen : wallets.length ≤ 100)
    (hv : validateAllAddresses wallets = .ok validated)
    (hdup : ∃ a ∈ validated, ∃ r ∈ db, r.address = a) :
    bulk_create_wallets tableId gen now wallets db =
      ⟨.error 400, db,
       [⟨bulkCheckQueryText tableId validated.length,
         validated.enum.map (fun p => ("addr_" ++ toString p.1, SqlValue.str p.2))⟩]⟩ := by
  obtain ⟨a, ha, r, hr, hra⟩ := hdup
  subst hra
  have hnonempty : validated.isEmpty = false := by
    cases validated with
    | nil => cases ha
    | cons x xs => rfl
  have hgt : ¬ wallets.length > 100 := by omega
  simp [bulk_create_wallets, hgt, hv, hnonempty]
  exact ⟨r.address, ha, r, hr, ha, rfl⟩

/-- Witness for claim C3 amended: a one-entry batch whose address is
already stored. -/
theorem bulk_existing_duplicate_aborts_app :
    bulk_create_wallets "p.d.t" genW 9 [⟨goodAddr, 1, true⟩] [rowA] =
      ⟨.error 400, [rowA],
       [⟨bulkCheckQueryText "p.d.t" ([goodAddr] : List PyStr).length,
         ([goodAddr] : List PyStr).enum.map
           (fun p => ("addr_" ++ toString p.1, SqlValue.str p.2))⟩]⟩ :=
  bulk_existing_duplicate_aborts "p.d.t" genW 9 [⟨goodAddr, 1, true⟩] [rowA]
    [goodAddr] (by decide) (by decide)
    ⟨goodAddr, by simp, rowA, by simp, rfl⟩

/-- Witness for claim C1 conjunct 2 at concrete differing values: the
JSON list endpoint's query text is unchanged. -/
theorem list_query_text_injection_app :
    (get_wallets_query "p.d.t" false 0 10 100 0 "created_at" (-1)).text =
      (get_wallets_query "p.d.t" false 5 9 8 3 "created_at" (-1)).text :=
  list_query_text_injection.2.1 "p.d.t" false "created_at" (-1) 0 10 100 0 5 9 8 3

/-- Witness for claim C10 conjunct 4 at a concrete malformed id: the get,
update and delete routes all fail with 400 and issue no query. -/
theorem wallet_id_verbatim_uuid_app :
    get_wallet "p.d.t" ['z'] [] = ⟨.error 400, [], []⟩ ∧
    update_wallet "p.d.t" ['z'] ⟨some 3, none⟩ 5 [] = ⟨.error 400, [], []⟩ ∧
    delete_wallet "p.d.t" ['z'] [] = ⟨.error 400, [], []⟩ :=
  wallet_id_verbatim_uuid.2.2.2.1 "p.d.t" ['z'] [] ⟨some 3, none⟩ 5 (by decide)

end WalletMgmt
